import Mathlib

/-!
Shallow embedding of the SSP protocol engine of `src/payoutd.c`
(the `payoutd` daemon of the kassomat-payout repository).

The embedding models the request-router layer of the daemon: the JSON
command dispatch in `cbOnRequestMessage`, the individual `handle*`
command handlers, the reply formatting helpers `replyWithSspResponse`
and `replyWithPropertyError`, the poll loop entry `mcSspPollDevice`,
and the validator poll-event mapper `validatorEventHandler`.

Hardware is modelled as an oracle `Device : SspCmd -> SspResponse × Nat`
giving, for each SSP command issued, the response code found in
`ResponseData[0]` (already mapped to the enum, with `send_ssp_command == 0`
modelled as the `timeout` response, exactly as the C helpers do) and the
byte found in `ResponseData[1]` (used by the payout/float and
last-reject-note handlers).

C `unsigned char` masks are modelled as `Nat` with explicit 8-bit
truncation where the C stores would truncate; the channel strings handed
to `strstr(channels, "d")` (single-character needles) are modelled as
`List Char` with character membership, which is exactly substring
containment for a one-character needle.
-/

namespace Payoutd

/-- Response codes of the SSP protocol as used by payoutd
(`SSP_RESPONSE_ENUM` values that the daemon inspects). -/
inductive SspResponse
  | ok
  | unknownCommand
  | incorrectParameters
  | invalidParameter
  | commandNotProcessed
  | softwareError
  | checksumError
  | failure
  | headerFailure
  | keyNotSet
  | timeout
deriving DecidableEq

/-- SSP commands issued by payoutd, abstracted to command id plus the
arguments the daemon computes (the byte-level serialisation lives in the
vendor library and in the `mc_ssp_*` marshalling code). -/
inductive SspCmd
  /-- `ssp6_set_inhibits(low, high)` -/
  | setInhibits (low high : Nat)
  /-- `mc_ssp_set_denomination_level(amount, level, "EUR")` -/
  | setDenominationLevel (amount level : Int)
  /-- `mc_ssp_set_cashbox_payout_limit(limit, denomination, "EUR")` -/
  | setCashboxPayoutLimit (limit denomination : Int)
  /-- `ssp6_poll` -/
  | poll
  /-- `ssp6_setup_encryption(key)` -/
  | keyExchange
  /-- `ssp6_host_protocol(version)` -/
  | hostProtocol (version : Nat)
  /-- `ssp6_enable` -/
  | enableCmd
  /-- `ssp6_disable` -/
  | disableCmd
  /-- `mc_ssp_empty` -/
  | emptyCmd
  /-- `mc_ssp_smart_empty` -/
  | smartEmpty
  /-- `ssp6_payout(amount, "EUR", option)`; `isDo` is true for the
  `SSP6_OPTION_BYTE_DO` option and false for `SSP6_OPTION_BYTE_TEST` -/
  | payout (amount : Int) (isDo : Bool)
  /-- `mc_ssp_float(amount, "EUR", option)` -/
  | floatCmd (amount : Int) (isDo : Bool)
  /-- `mc_ssp_get_all_levels` -/
  | getAllLevels
  /-- `mc_ssp_cashbox_payout_operation_data` -/
  | cashboxPayoutOperationData
  /-- `mc_ssp_get_firmware_version` -/
  | getFirmwareVersion
  /-- `mc_ssp_get_dataset_version` -/
  | getDatasetVersion
  /-- `mc_ssp_channel_security_data` -/
  | channelSecurityData
  /-- `mc_ssp_last_reject_note` -/
  | lastRejectNote
  /-- `mc_ssp_configure_bezel(r, g, b, volatileOption, bezelTypeOption)` -/
  | configureBezel (r g b volatileOption bezelTypeOption : Nat)
  /-- `ssp6_run_calibration` -/
  | runCalibration
deriving DecidableEq

/-- The hardware oracle: for each issued SSP command, the response code
and the `ResponseData[1]` byte of the device's answer. -/
def Device : Type := SspCmd → SspResponse × Nat

/-- JSON values as far as the daemon inspects them (`json_is_string` /
`json_is_integer`); a missing property is `Option.none` at the use site. -/
inductive Json
  | str (s : String)
  | int (n : Int)
deriving DecidableEq

/-- Replies published to a response topic, one constructor per distinct
format string passed to `replyWith` in `payoutd.c`.  Only the fields that
appear in the corresponding format string are carried. -/
inductive Reply
  /-- `{"msgId":..,"correlId":..,"result":"ok"}` from `replyWithSspResponse` -/
  | sspOk (msgId correlId : String)
  /-- `{"msgId":..,"correlId":..,"sspError":..}` from `replyWithSspResponse` -/
  | sspErr (msgId correlId : String) (errorMsg : String)
  /-- `{"msgId":..,"correlId":..,"error":"Property '<name>' missing or of wrong type"}` -/
  | propertyError (msgId correlId : String) (name : String)
  /-- `{"correlId":..,"error":..}` from the `COMMAND_NOT_PROCESSED` branch of
  `handlePayout` / `handleFloat` -/
  | payoutError (correlId : String) (errorMsg : String)
  /-- `{"correlId":..,"levels":[..]}` from `handleGetAllLevels` and
  `handleCashboxPayoutOperationData` -/
  | levels (correlId : String)
  /-- `{"correlId":..,"version":..}` from `handleGetFirmwareVersion` and
  `handleGetDatasetVersion` -/
  | version (correlId : String)
  /-- `{"correlId":..,"reason":..,"code":..}` from `handleLastRejectNote` -/
  | rejectNote (correlId : String) (reason : String) (code : Nat)
  /-- `{"error":"could not parse json","reason":..,"line":..}` -/
  | parseError (reason : String) (line : Int)
  /-- `{"correlId":..,"error":"hardware unavailable"}` -/
  | hardwareUnavailable (correlId : String)
  /-- `{"correlId":..,"error":"unknown command","cmd":..}` -/
  | unknownCmd (correlId : String) (cmd : String)
deriving DecidableEq

/-- The `msgId` field of a published reply, when the reply's format
string contains one. -/
def Reply.msgIdField : Reply → Option String
  | .sspOk m _ => some m
  | .sspErr m _ _ => some m
  | .propertyError m _ _ => some m
  | _ => none

/-- The `correlId` field of a published reply, when the reply's format
string contains one. -/
def Reply.correlIdField : Reply → Option String
  | .sspOk _ c => some c
  | .sspErr _ c _ => some c
  | .propertyError _ c _ => some c
  | .payoutError c _ => some c
  | .levels c => some c
  | .version c => some c
  | .rejectNote c _ _ => some c
  | .parseError _ _ => none
  | .hardwareUnavailable c => some c
  | .unknownCmd c _ => some c

/-- The error-message translation table of `replyWithSspResponse`. -/
def sspErrorMessage : SspResponse → String
  | .unknownCommand => "unknown command"
  | .incorrectParameters => "incorrect parameters"
  | .invalidParameter => "invalid parameter"
  | .commandNotProcessed => "command not processed"
  | .softwareError => "software error"
  | .checksumError => "checksum error"
  | .failure => "failure"
  | .headerFailure => "header failure"
  | .keyNotSet => "key not set"
  | .timeout => "timeout"
  | .ok => "unknown"

/-- `replyWithSspResponse`: `ok` becomes a `result:"ok"` reply, everything
else an `sspError` reply with the translated message. -/
def replyWithSspResponse (msgId correlId : String) (r : SspResponse) : Reply :=
  if r = SspResponse.ok then Reply.sspOk msgId correlId
  else Reply.sspErr msgId correlId (sspErrorMessage r)

/-- `replyWithPropertyError`: a `NULL` msgId or correlId in the command
structure is replaced by the literal string `"unknown"`. -/
def replyWithPropertyError (msgId correlId : Option String) (name : String) : Reply :=
  Reply.propertyError (msgId.getD "unknown") (correlId.getD "unknown") name

/-- Result of running one command handler (or the whole dispatch):
the SSP commands issued on the wire in order, the replies published to
the response topic in order, the device's `channelInhibits` field after
the handler ran, and whether the quit flag was set. -/
structure HandlerResult where
  calls : List SspCmd
  replies : List Reply
  inhibits : Nat
  quitRequested : Bool
deriving DecidableEq

/-- The mask computation of `handleEnableChannels`: starting from the
stored `channelInhibits`, OR in bit `d-1` for every digit `d` of
`"1".."8"` occurring in the `channels` string. -/
def enableChannelsMask (cur : Nat) (channels : List Char) : Nat :=
  let m0 := cur
  let m1 := if channels.contains '1' then m0 ||| (1 <<< 0) else m0
  let m2 := if channels.contains '2' then m1 ||| (1 <<< 1) else m1
  let m3 := if channels.contains '3' then m2 ||| (1 <<< 2) else m2
  let m4 := if channels.contains '4' then m3 ||| (1 <<< 3) else m3
  let m5 := if channels.contains '5' then m4 ||| (1 <<< 4) else m4
  let m6 := if channels.contains '6' then m5 ||| (1 <<< 5) else m5
  let m7 := if channels.contains '7' then m6 ||| (1 <<< 6) else m6
  if channels.contains '8' then m7 ||| (1 <<< 7) else m7

/-- The mask computation of `handleDisableChannels`: clear bit `d-1` for
every digit `d` occurring in the string.  The C `m &= ~(1 << k)` on an
`unsigned char` is `m &&& (255 ^^^ (1 <<< k))` for `m < 256`. -/
def disableChannelsMask (cur : Nat) (channels : List Char) : Nat :=
  let m0 := cur
  let m1 := if channels.contains '1' then m0 &&& (255 ^^^ (1 <<< 0)) else m0
  let m2 := if channels.contains '2' then m1 &&& (255 ^^^ (1 <<< 1)) else m1
  let m3 := if channels.contains '3' then m2 &&& (255 ^^^ (1 <<< 2)) else m2
  let m4 := if channels.contains '4' then m3 &&& (255 ^^^ (1 <<< 3)) else m3
  let m5 := if channels.contains '5' then m4 &&& (255 ^^^ (1 <<< 4)) else m4
  let m6 := if channels.contains '6' then m5 &&& (255 ^^^ (1 <<< 5)) else m5
  let m7 := if channels.contains '7' then m6 &&& (255 ^^^ (1 <<< 6)) else m6
  if channels.contains '8' then m7 &&& (255 ^^^ (1 <<< 7)) else m7

/-- The mask computation of `handleInhibitChannels`: clear bit `d-1`
from `0xFF` for every digit `d` occurring in the string. -/
def inhibitChannelsMask (channels : List Char) : Nat :=
  disableChannelsMask 255 channels

/-- `handleEnableChannels`: compute the new low mask from the stored
inhibits, issue `SET_INHIBITS(newLow, 0xFF)`, persist the new mask only
on an OK response, and reply via `replyWithSspResponse`. -/
def handleEnableChannels (fm cid : String) (channels : Option Json)
    (dev : Device) (inh : Nat) : HandlerResult :=
  match channels with
  | some (Json.str s) =>
    let newLow := enableChannelsMask inh s.data
    let call := SspCmd.setInhibits newLow 255
    let r := (dev call).1
    ⟨[call], [replyWithSspResponse fm cid r],
      if r = SspResponse.ok then newLow else inh, false⟩
  | _ => ⟨[], [replyWithPropertyError (some fm) (some cid) "channels"], inh, false⟩

/-- `handleDisableChannels`, symmetric to `handleEnableChannels`. -/
def handleDisableChannels (fm cid : String) (channels : Option Json)
    (dev : Device) (inh : Nat) : HandlerResult :=
  match channels with
  | some (Json.str s) =>
    let newLow := disableChannelsMask inh s.data
    let call := SspCmd.setInhibits newLow 255
    let r := (dev call).1
    ⟨[call], [replyWithSspResponse fm cid r],
      if r = SspResponse.ok then newLow else inh, false⟩
  | _ => ⟨[], [replyWithPropertyError (some fm) (some cid) "channels"], inh, false⟩

/-- `handleInhibitChannels`: stateless, writes the computed mask but
never updates the stored `channelInhibits`. -/
def handleInhibitChannels (fm cid : String) (channels : Option Json)
    (dev : Device) (inh : Nat) : HandlerResult :=
  match channels with
  | some (Json.str s) =>
    let call := SspCmd.setInhibits (inhibitChannelsMask s.data) 255
    ⟨[call], [replyWithSspResponse fm cid (dev call).1], inh, false⟩
  | _ => ⟨[], [replyWithPropertyError (some fm) (some cid) "channels"], inh, false⟩

/-- `handleQuit`: sets the quit flag and replies OK. -/
def handleQuit (fm cid : String) (inh : Nat) : HandlerResult :=
  ⟨[], [replyWithSspResponse fm cid SspResponse.ok], inh, true⟩

/-- `handleTest`: replies OK without touching the hardware. -/
def handleTest (fm cid : String) (inh : Nat) : HandlerResult :=
  ⟨[], [replyWithSspResponse fm cid SspResponse.ok], inh, false⟩

/-- `handleEmpty`: one `EMPTY` command, reply via `replyWithSspResponse`. -/
def handleEmpty (fm cid : String) (dev : Device) (inh : Nat) : HandlerResult :=
  ⟨[SspCmd.emptyCmd], [replyWithSspResponse fm cid (dev SspCmd.emptyCmd).1], inh, false⟩

/-- `handleSmartEmpty`: one `SMART EMPTY` command. -/
def handleSmartEmpty (fm cid : String) (dev : Device) (inh : Nat) : HandlerResult :=
  ⟨[SspCmd.smartEmpty], [replyWithSspResponse fm cid (dev SspCmd.smartEmpty).1], inh, false⟩

/-- `handleEnable`: one `ssp6_enable` command. -/
def handleEnable (fm cid : String) (dev : Device) (inh : Nat) : HandlerResult :=
  ⟨[SspCmd.enableCmd], [replyWithSspResponse fm cid (dev SspCmd.enableCmd).1], inh, false⟩

/-- `handleDisable`: one `ssp6_disable` command. -/
def handleDisable (fm cid : String) (dev : Device) (inh : Nat) : HandlerResult :=
  ⟨[SspCmd.disableCmd], [replyWithSspResponse fm cid (dev SspCmd.disableCmd).1], inh, false⟩

/-- The reason-byte translation of the `COMMAND_NOT_PROCESSED` branch in
`handlePayout` and `handleFloat`. -/
def payoutErrorMessage : Nat → String
  | 1 => "not enough value in smart payout"
  | 2 => "can't pay exact amount"
  | 3 => "smart payout busy"
  | 4 => "smart payout disabled"
  | _ => "unknown"

/-- `handlePayout` (used for both `do-payout` and `test-payout`; `isDo`
tells the two apart).  On `COMMAND_NOT_PROCESSED` the reason byte
`ResponseData[1]` is translated to a human readable error reply that
carries only the correlId; otherwise `replyWithSspResponse` is used. -/
def handlePayout (fm cid : String) (isDo : Bool) (amount : Option Json)
    (dev : Device) (inh : Nat) : HandlerResult :=
  match amount with
  | some (Json.int a) =>
    let call := SspCmd.payout a isDo
    let r := dev call
    if r.1 = SspResponse.commandNotProcessed then
      ⟨[call], [Reply.payoutError cid (payoutErrorMessage r.2)], inh, false⟩
    else
      ⟨[call], [replyWithSspResponse fm cid r.1], inh, false⟩
  | _ => ⟨[], [replyWithPropertyError (some fm) (some cid) "amount"], inh, false⟩

/-- `handleFloat` (used for `do-float` and `test-float`), a copy of
`handlePayout` issuing the `FLOAT` command. -/
def handleFloat (fm cid : String) (isDo : Bool) (amount : Option Json)
    (dev : Device) (inh : Nat) : HandlerResult :=
  match amount with
  | some (Json.int a) =>
    let call := SspCmd.floatCmd a isDo
    let r := dev call
    if r.1 = SspResponse.commandNotProcessed then
      ⟨[call], [Reply.payoutError cid (payoutErrorMessage r.2)], inh, false⟩
    else
      ⟨[call], [replyWithSspResponse fm cid r.1], inh, false⟩
  | _ => ⟨[], [replyWithPropertyError (some fm) (some cid) "amount"], inh, false⟩

/-- `handleSetDenominationLevels`: after validating `level` then `amount`,
if `level > 0` the handler first issues `SET_DENOMINATION_LEVEL(amount, 0)`
(zeroing the counter, with the result ignored) and then, in every case,
`SET_DENOMINATION_LEVEL(amount, level)` whose response is replied. -/
def handleSetDenominationLevels (fm cid : String) (jLevel jAmount : Option Json)
    (dev : Device) (inh : Nat) : HandlerResult :=
  match jLevel with
  | some (Json.int level) =>
    match jAmount with
    | some (Json.int amount) =>
      let preCalls := if level > 0 then [SspCmd.setDenominationLevel amount 0] else []
      let mainCall := SspCmd.setDenominationLevel amount level
      ⟨preCalls ++ [mainCall], [replyWithSspResponse fm cid (dev mainCall).1], inh, false⟩
    | _ => ⟨[], [replyWithPropertyError (some fm) (some cid) "amount"], inh, false⟩
  | _ => ⟨[], [replyWithPropertyError (some fm) (some cid) "level"], inh, false⟩

/-- `handleSetCashboxPayoutLimit`: validates `level` then `amount` and
issues one `SET CASHBOX PAYOUT LIMIT` command (the handler passes `level`
as the limit and `amount` as the denomination). -/
def handleSetCashboxPayoutLimit (fm cid : String) (jLevel jAmount : Option Json)
    (dev : Device) (inh : Nat) : HandlerResult :=
  match jLevel with
  | some (Json.int level) =>
    match jAmount with
    | some (Json.int amount) =>
      let call := SspCmd.setCashboxPayoutLimit level amount
      ⟨[call], [replyWithSspResponse fm cid (dev call).1], inh, false⟩
    | _ => ⟨[], [replyWithPropertyError (some fm) (some cid) "amount"], inh, false⟩
  | _ => ⟨[], [replyWithPropertyError (some fm) (some cid) "level"], inh, false⟩

/-- `handleGetAllLevels`: on OK a `levels` reply carrying only the
correlId; otherwise `replyWithSspResponse`. -/
def handleGetAllLevels (fm cid : String) (dev : Device) (inh : Nat) : HandlerResult :=
  let r := (dev SspCmd.getAllLevels).1
  if r = SspResponse.ok then
    ⟨[SspCmd.getAllLevels], [Reply.levels cid], inh, false⟩
  else
    ⟨[SspCmd.getAllLevels], [replyWithSspResponse fm cid r], inh, false⟩

/-- `handleCashboxPayoutOperationData`, same reply shape as
`handleGetAllLevels`. -/
def handleCashboxPayoutOperationData (fm cid : String) (dev : Device) (inh : Nat) :
    HandlerResult :=
  let r := (dev SspCmd.cashboxPayoutOperationData).1
  if r = SspResponse.ok then
    ⟨[SspCmd.cashboxPayoutOperationData], [Reply.levels cid], inh, false⟩
  else
    ⟨[SspCmd.cashboxPayoutOperationData], [replyWithSspResponse fm cid r], inh, false⟩

/-- `handleGetFirmwareVersion`: on OK a `version` reply with only the
correlId; otherwise `replyWithSspResponse`. -/
def handleGetFirmwareVersion (fm cid : String) (dev : Device) (inh : Nat) : HandlerResult :=
  let r := (dev SspCmd.getFirmwareVersion).1
  if r = SspResponse.ok then
    ⟨[SspCmd.getFirmwareVersion], [Reply.version cid], inh, false⟩
  else
    ⟨[SspCmd.getFirmwareVersion], [replyWithSspResponse fm cid r], inh, false⟩

/-- `handleGetDatasetVersion`, same shape as `handleGetFirmwareVersion`. -/
def handleGetDatasetVersion (fm cid : String) (dev : Device) (inh : Nat) : HandlerResult :=
  let r := (dev SspCmd.getDatasetVersion).1
  if r = SspResponse.ok then
    ⟨[SspCmd.getDatasetVersion], [Reply.version cid], inh, false⟩
  else
    ⟨[SspCmd.getDatasetVersion], [replyWithSspResponse fm cid r], inh, false⟩

/-- The reject-reason translation table of `handleLastRejectNote`. -/
def lastRejectReason : Nat → String
  | 0x00 => "note accepted"
  | 0x01 => "note length incorrect"
  | 0x02 => "internal validation failure: average fail"
  | 0x03 => "internal validation failure: coastline fail"
  | 0x04 => "internal validation failure: graph fail"
  | 0x05 => "internal validation failure: buried fail"
  | 0x06 => "channel inhibited"
  | 0x07 => "second note inserted"
  | 0x08 => "reject by host"
  | 0x09 => "note recognised in more than one channel"
  | 0x0A => "rear sensor error"
  | 0x0B => "note too long"
  | 0x0C => "disabled by host"
  | 0x0D => "mechanism slow/stalled"
  | 0x0E => "strimming attempt detected"
  | 0x0F => "fraud channel reject"
  | 0x10 => "no notes inserted"
  | 0x11 => "peak detect fail"
  | 0x12 => "twisted note detected"
  | 0x13 => "escrow time-out"
  | 0x14 => "bar code scan fail"
  | 0x15 => "rear sensor 2 fail"
  | 0x16 => "slot fail 1"
  | 0x17 => "slot fail 2"
  | 0x18 => "lens over-sample"
  | 0x19 => "width detect fail"
  | 0x1A => "short note detected"
  | 0x1B => "note payout"
  | 0x1C => "unable to stack note"
  | _ => "undefined in API"

/-- `handleLastRejectNote`: on OK the reason byte is translated and a
reply carrying correlId, reason and code (but no msgId) is published. -/
def handleLastRejectNote (fm cid : String) (dev : Device) (inh : Nat) : HandlerResult :=
  let r := dev SspCmd.lastRejectNote
  if r.1 = SspResponse.ok then
    ⟨[SspCmd.lastRejectNote], [Reply.rejectNote cid (lastRejectReason r.2) r.2], inh, false⟩
  else
    ⟨[SspCmd.lastRejectNote], [replyWithSspResponse fm cid r.1], inh, false⟩

/-- `handleChannelSecurityData`: issues the command and publishes NO
reply at all (the response is only written to the syslog). -/
def handleChannelSecurityData (dev : Device) (inh : Nat) : HandlerResult :=
  let _ := dev SspCmd.channelSecurityData
  ⟨[SspCmd.channelSecurityData], [], inh, false⟩

/-- `handleConfigureBezel`: validates `r`, `g`, `b`, `type` in this order
and issues `CONFIGURE BEZEL` with the non-volatile option (1).  The C
handler narrows each `json_integer_value` to `unsigned char`, modelled
here by `% 256` on the mathematical remainder. -/
def handleConfigureBezel (fm cid : String) (jR jG jB jType : Option Json)
    (dev : Device) (inh : Nat) : HandlerResult :=
  match jR with
  | some (Json.int r) =>
    match jG with
    | some (Json.int g) =>
      match jB with
      | some (Json.int b) =>
        match jType with
        | some (Json.int t) =>
          let call := SspCmd.configureBezel (r % 256).toNat (g % 256).toNat
            (b % 256).toNat 1 (t % 256).toNat
          ⟨[call], [replyWithSspResponse fm cid (dev call).1], inh, false⟩
        | _ => ⟨[], [replyWithPropertyError (some fm) (some cid) "type"], inh, false⟩
      | _ => ⟨[], [replyWithPropertyError (some fm) (some cid) "b"], inh, false⟩
    | _ => ⟨[], [replyWithPropertyError (some fm) (some cid) "g"], inh, false⟩
  | _ => ⟨[], [replyWithPropertyError (some fm) (some cid) "r"], inh, false⟩

/-- The JSON properties of an inbound request that the dispatch and the
handlers inspect (`json_object_get` on the parsed message; `none` models
a missing property). -/
structure Request where
  msgId : Option Json
  cmd : Option Json
  channels : Option Json
  amount : Option Json
  level : Option Json
  rVal : Option Json
  gVal : Option Json
  bVal : Option Json
  bezelType : Option Json
deriving DecidableEq

/-- An inbound bus message after the `json_loads` attempt: either a parse
failure with jansson's reason and line, or the parsed property map. -/
inductive InboundMessage
  | parseFail (reason : String) (line : Int)
  | parsed (req : Request)
deriving DecidableEq

/-- `json_is_string` on an optional property. -/
def isJsonString : Option Json → Bool
  | some (Json.str _) => true
  | _ => false

/-- The dispatch of `cbOnRequestMessage` after the topic has selected the
device and response topic: `fm` is the freshly generated response msgId
(UUID), `sspAvailable` the hardware flag, `dev` the device oracle and
`inh` the device's stored `channelInhibits`.  Branch order mirrors the C
if-chain exactly. -/
def cbOnRequestMessage (fm : String) (msg : InboundMessage) (sspAvailable : Bool)
    (dev : Device) (inh : Nat) : HandlerResult :=
  match msg with
  | .parseFail reason line => ⟨[], [Reply.parseError reason line], inh, false⟩
  | .parsed req =>
    match req.msgId with
    | some (Json.str correlId) =>
      match req.cmd with
      | some (Json.str command) =>
        if command = "quit" then handleQuit fm correlId inh
        else if command = "test" then handleTest fm correlId inh
        else if sspAvailable = false then
          ⟨[], [Reply.hardwareUnavailable correlId], inh, false⟩
        else if command = "configure-bezel" then
          handleConfigureBezel fm correlId req.rVal req.gVal req.bVal req.bezelType dev inh
        else if command = "empty" then handleEmpty fm correlId dev inh
        else if command = "smart-empty" then handleSmartEmpty fm correlId dev inh
        else if command = "cashbox-payout-operation-data" then
          handleCashboxPayoutOperationData fm correlId dev inh
        else if command = "set-cashbox-payout-limit" then
          handleSetCashboxPayoutLimit fm correlId req.level req.amount dev inh
        else if command = "enable" then handleEnable fm correlId dev inh
        else if command = "disable" then handleDisable fm correlId dev inh
        else if command = "enable-channels" then
          handleEnableChannels fm correlId req.channels dev inh
        else if command = "disable-channels" then
          handleDisableChannels fm correlId req.channels dev inh
        else if command = "inhibit-channels" then
          handleInhibitChannels fm correlId req.channels dev inh
        else if command = "test-float" ∨ command = "do-float" then
          handleFloat fm correlId (command = "do-float") req.amount dev inh
        else if command = "test-payout" ∨ command = "do-payout" then
          handlePayout fm correlId (command = "do-payout") req.amount dev inh
        else if command = "get-firmware-version" then
          handleGetFirmwareVersion fm correlId dev inh
        else if command = "get-dataset-version" then
          handleGetDatasetVersion fm correlId dev inh
        else if command = "channel-security-data" then
          handleChannelSecurityData dev inh
        else if command = "get-all-levels" then handleGetAllLevels fm correlId dev inh
        else if command = "set-denomination-level" then
          handleSetDenominationLevels fm correlId req.level req.amount dev inh
        else if command = "last-reject-note" then handleLastRejectNote fm correlId dev inh
        else ⟨[], [Reply.unknownCmd correlId command], inh, false⟩
      | _ => ⟨[], [replyWithPropertyError (some fm) (some correlId) "cmd"], inh, false⟩
    | _ => ⟨[], [replyWithPropertyError (some fm) none "msgId"], inh, false⟩

/-- Poll events reported by a device, restricted to the constructors the
claims are about (the remaining status-only events are folded into
`other`, which the C maps to one fixed-format publish each). -/
inductive PollEvent
  /-- `SSP_POLL_RESET` -/
  | reset
  /-- `SSP_POLL_READ` with its one data value (the channel byte) -/
  | read (data1 : Nat)
  /-- `SSP_POLL_CREDIT` with its channel byte and country code -/
  | credit (data1 : Nat) (cc : String)
  /-- `SSP_POLL_DISABLED` -/
  | disabledEvt
  /-- any other opcode, carrying its id -/
  | other (id : Nat)
deriving DecidableEq

/-- Events published to the `validator-event` topic, one constructor per
format-string shape used in `validatorEventHandler`. -/
inductive VOut
  /-- `{"event":"unit reset"}` -/
  | unitReset
  /-- `{"event":"read","amount":..,"channel":..}` -/
  | readAmount (amount : Nat) (channel : Nat)
  /-- `{"event":"reading"}` -/
  | reading
  /-- `{"event":"credit","amount":..,"channel":..}` -/
  | creditAmount (amount : Nat) (channel : Nat)
  /-- `{"event":"disabled"}` -/
  | disabledOut
  /-- `{"event":"unknown","id":..}` (the default branch) -/
  | unknownOut (id : Nat)
deriving DecidableEq

/-- Outcome of running the validator's poll-event mapper over a batch:
the published events in order, the SSP commands it issued, and
`some rc` when a `die(_, rc)` terminated the process (no later event of
the batch is processed then). -/
structure VResult where
  published : List VOut
  calls : List SspCmd
  exited : Option Nat
deriving DecidableEq

/-- `validatorEventHandler`: iterates the events of one `POLL` batch.
`table c` is `device->sspSetupReq.ChannelData[c].value` (the channel
table is a fixed C array, modelled as a total function on the index; the
C read at index `data1 - 1` is undefined behaviour for `data1 = 0` on a
CREDIT event, and the theorems only evaluate that case for `data1 ≥ 1`).
A RESET event re-pins protocol version 6 and calls `die(_, 3)` on
failure, aborting the batch. -/
def validatorEventHandler (table : Nat → Nat) (dev : Device) :
    List PollEvent → VResult
  | [] => ⟨[], [], none⟩
  | e :: rest =>
    match e with
    | PollEvent.reset =>
      if (dev (SspCmd.hostProtocol 6)).1 ≠ SspResponse.ok then
        ⟨[VOut.unitReset], [SspCmd.hostProtocol 6], some 3⟩
      else
        let r := validatorEventHandler table dev rest
        ⟨VOut.unitReset :: r.published, SspCmd.hostProtocol 6 :: r.calls, r.exited⟩
    | PollEvent.read d1 =>
      let out := if d1 > 0 then VOut.readAmount (table (d1 - 1) * 100) d1 else VOut.reading
      let r := validatorEventHandler table dev rest
      ⟨out :: r.published, r.calls, r.exited⟩
    | PollEvent.credit d1 _ =>
      let r := validatorEventHandler table dev rest
      ⟨VOut.creditAmount (table (d1 - 1) * 100) d1 :: r.published, r.calls, r.exited⟩
    | PollEvent.disabledEvt =>
      let r := validatorEventHandler table dev rest
      ⟨VOut.disabledOut :: r.published, r.calls, r.exited⟩
    | PollEvent.other id =>
      let r := validatorEventHandler table dev rest
      ⟨VOut.unknownOut id :: r.published, r.calls, r.exited⟩

/-- Outcome of one `mcSspPollDevice` call: the SSP commands issued, the
flag whether the device's event handler was invoked, and its result. -/
structure PollOutcome where
  calls : List SspCmd
  handlerInvoked : Bool
  handled : Option VResult
deriving DecidableEq

/-- `mcSspPollDevice` for the validator: issue `POLL`; on TIMEOUT give
up; on KEY_NOT_SET run `ssp6_setup_encryption` (key renegotiation) and
return WITHOUT re-issuing the poll; on any other non-OK response only
log; on OK hand the decoded events (if any) to `validatorEventHandler`.
`events` is the event batch the device would deliver with an OK poll
response. -/
def mcSspPollDevice (table : Nat → Nat) (dev : Device) (events : List PollEvent) :
    PollOutcome :=
  let r := (dev SspCmd.poll).1
  if r ≠ SspResponse.ok then
    if r = SspResponse.timeout then ⟨[SspCmd.poll], false, none⟩
    else if r = SspResponse.keyNotSet then
      ⟨[SspCmd.poll, SspCmd.keyExchange], false, none⟩
    else ⟨[SspCmd.poll], false, none⟩
  else
    if events.length > 0 then
      let vr := validatorEventHandler table dev events
      ⟨SspCmd.poll :: vr.calls, true, some vr⟩
    else ⟨[SspCmd.poll], false, none⟩

/-- The process exit code of `main` on its terminating paths: a failed
`parseCmdLine` and a failed redis connection both call `die(_, 1)`;
after a clean event-loop exit `main` returns 0.  (The re-pin paths of
the event handlers call `die(_, 3)` and are modelled in
`validatorEventHandler`.) -/
def mainExitCode (cmdLineOk redisOk : Bool) : Nat :=
  if cmdLineOk = false then 1
  else if redisOk = false then 1
  else 0

/-- A device oracle answering every command with the fixed response `r`
and reason byte 0. -/
def constDev (r : SspResponse) : Device := fun _ => (r, 0)

/-- One invocation of a channel-mask handler, with the channels string
it received and the response the device gave. -/
inductive ChanOp
  | enable (channels : String) (r : SspResponse)
  | disable (channels : String) (r : SspResponse)
  | inhibit (channels : String) (r : SspResponse)
deriving DecidableEq

/-- State observed by claim C1: the peer's stored `channelInhibits`
together with the low byte of the last `SET_INHIBITS` command the device
acknowledged with OK (`none` before any acknowledged write).  The
`lastAckedLow` component is the specification-side observer; only
`inhibits` exists in the C peer record. -/
structure ChanState where
  inhibits : Nat
  lastAckedLow : Option Nat
deriving DecidableEq

/-- Observer update: scan the SSP commands a handler issued and record
the low byte of every `SET_INHIBITS` the device answered with OK. -/
def trackAck (la : Option Nat) (calls : List SspCmd) (dev : Device) : Option Nat :=
  calls.foldl
    (fun acc c =>
      match c with
      | SspCmd.setInhibits low _ => if (dev c).1 = SspResponse.ok then some low else acc
      | _ => acc)
    la

/-- One step of the channel-inhibit state machine: run the corresponding
handler on the stored mask and track acknowledged `SET_INHIBITS` writes. -/
def chanStep (s : ChanState) (op : ChanOp) : ChanState :=
  match op with
  | ChanOp.enable ch r =>
    let res := handleEnableChannels "m" "c" (some (Json.str ch)) (constDev r) s.inhibits
    ⟨res.inhibits, trackAck s.lastAckedLow res.calls (constDev r)⟩
  | ChanOp.disable ch r =>
    let res := handleDisableChannels "m" "c" (some (Json.str ch)) (constDev r) s.inhibits
    ⟨res.inhibits, trackAck s.lastAckedLow res.calls (constDev r)⟩
  | ChanOp.inhibit ch r =>
    let res := handleInhibitChannels "m" "c" (some (Json.str ch)) (constDev r) s.inhibits
    ⟨res.inhibits, trackAck s.lastAckedLow res.calls (constDev r)⟩

/-- The invariant asserted by claim C1: whenever some `SET_INHIBITS` has
been acknowledged, the stored mask equals its low byte. -/
def chanInv (s : ChanState) : Bool :=
  match s.lastAckedLow with
  | none => true
  | some v => s.inhibits = v

/-- Is the step one of the two persisted-mask handlers? -/
def isEnableDisable : ChanOp → Bool
  | ChanOp.enable _ _ => true
  | ChanOp.disable _ _ => true
  | ChanOp.inhibit _ _ => false

/-- Reply well-formedness checked by claim C6 for a request whose msgId
parsed to the string `cid`: the reply's correlId field is exactly `cid`,
and its msgId field, when the format string has one, is the fresh
response id `fm`. -/
def goodReply (fm cid : String) (r : Reply) : Bool :=
  r.correlIdField = some cid &&
    (r.msgIdField = some fm || r.msgIdField = none)

/-- The concrete two-step scenario of claim C8: starting from the
all-disabled mask 0, a successful `enable-channels("135")` followed by a
successful `disable-channels("3")`; the value is the stored
`channelInhibits` afterwards. -/
def c8run : Nat :=
  let s1 := (handleEnableChannels "m" "c" (some (Json.str "135"))
    (constDev SspResponse.ok) 0).inhibits
  (handleDisableChannels "m" "c" (some (Json.str "3"))
    (constDev SspResponse.ok) s1).inhibits

/-- The digit of `"1".."8"` naming channel bit `k` (bit `d-1` for digit `d`). -/
def digitChar : Nat → Char
  | 0 => '1' | 1 => '2' | 2 => '3' | 3 => '4'
  | 4 => '5' | 5 => '6' | 6 => '7' | _ => '8'

/-- The dispatched hardware commands whose handler publishes its reply
through `replyWithSspResponse` when the device reports an error (every
known command except `quit` and `test`, which never touch the hardware,
and `channel-security-data`, which publishes nothing). -/
def hardwareReplyCmds : List String :=
  ["configure-bezel", "empty", "smart-empty", "cashbox-payout-operation-data",
   "set-cashbox-payout-limit", "enable", "disable", "enable-channels",
   "disable-channels", "inhibit-channels", "test-float", "do-float",
   "test-payout", "do-payout", "get-firmware-version", "get-dataset-version",
   "get-all-levels", "set-denomination-level", "last-reject-note"]

theorem testBit_cond_or (b : Bool) (x c k : Nat) :
    (if b = true then x ||| c else x).testBit k = (x.testBit k || (b && c.testBit k)) := by
  cases b <;> simp [Nat.testBit_lor]

theorem testBit_cond_and (b : Bool) (x c k : Nat) :
    (if b = true then x &&& c else x).testBit k = (x.testBit k && (!b || c.testBit k)) := by
  cases b <;> simp [Nat.testBit_land]

theorem enable_mask_testBit (cur : Nat) (ch : List Char) (k : Nat) (hk : k < 8) :
    (enableChannelsMask cur ch).testBit k = (cur.testBit k || ch.contains (digitChar k)) := by
  unfold enableChannelsMask
  simp only [testBit_cond_or]
  interval_cases k <;>
    · simp only [digitChar]
      generalize cur.testBit _ = t
      generalize ch.contains '1' = b1
      generalize ch.contains '2' = b2
      generalize ch.contains '3' = b3
      generalize ch.contains '4' = b4
      generalize ch.contains '5' = b5
      generalize ch.contains '6' = b6
      generalize ch.contains '7' = b7
      generalize ch.contains '8' = b8
      revert t b1 b2 b3 b4 b5 b6 b7 b8
      decide

theorem disable_mask_testBit (cur : Nat) (ch : List Char) (k : Nat) (hk : k < 8) :
    (disableChannelsMask cur ch).testBit k
      = (cur.testBit k && !(ch.contains (digitChar k))) := by
  unfold disableChannelsMask
  simp only [testBit_cond_and]
  interval_cases k <;>
    · simp only [digitChar]
      generalize cur.testBit _ = t
      generalize ch.contains '1' = b1
      generalize ch.contains '2' = b2
      generalize ch.contains '3' = b3
      generalize ch.contains '4' = b4
      generalize ch.contains '5' = b5
      generalize ch.contains '6' = b6
      generalize ch.contains '7' = b7
      generalize ch.contains '8' = b8
      revert t b1 b2 b3 b4 b5 b6 b7 b8
      decide

/-- C2.  For every enable-channels and disable-channels request with a
string `channels` field, the handler computes the new low mask from the
stored `channelInhibits` by setting (respectively clearing) bit `d-1`
for each digit `d` of `"1".."8"` present in the string, issues exactly
`SET_INHIBITS(newLow, 0xFF)`, and the stored mask becomes `newLow`
exactly when the device answers OK, staying unchanged otherwise. -/
theorem enable_disable_channels_persistence (fm cid : String) (cur : Nat) (ch : String)
    (dev : Device) :
    (handleEnableChannels fm cid (some (Json.str ch)) dev cur).calls
        = [SspCmd.setInhibits (enableChannelsMask cur ch.data) 255]
  ∧ (∀ k, k < 8 → (enableChannelsMask cur ch.data).testBit k
        = (cur.testBit k || ch.data.contains (digitChar k)))
  ∧ (handleEnableChannels fm cid (some (Json.str ch)) dev cur).inhibits
      = (if (dev (SspCmd.setInhibits (enableChannelsMask cur ch.data) 255)).1
            = SspResponse.ok
         then enableChannelsMask cur ch.data else cur)
  ∧ (handleDisableChannels fm cid (some (Json.str ch)) dev cur).calls
        = [SspCmd.setInhibits (disableChannelsMask cur ch.data) 255]
  ∧ (∀ k, k < 8 → (disableChannelsMask cur ch.data).testBit k
        = (cur.testBit k && !(ch.data.contains (digitChar k))))
  ∧ (handleDisableChannels fm cid (some (Json.str ch)) dev cur).inhibits
      = (if (dev (SspCmd.setInhibits (disableChannelsMask cur ch.data) 255)).1
            = SspResponse.ok
         then disableChannelsMask cur ch.data else cur) :=
  ⟨rfl, fun k hk => enable_mask_testBit cur ch.data k hk, rfl,
   rfl, fun k hk => disable_mask_testBit cur ch.data k hk, rfl⟩

/-- Witness for `enable_disable_channels_persistence` at concrete inputs:
after enable-channels("135") on mask 3, bit 2 is set because the digit 3
is present. -/
theorem enable_disable_channels_persistence_witness :
    (enableChannelsMask 3 "135".data).testBit 2
      = ((3 : Nat).testBit 2 || "135".data.contains (digitChar 2)) :=
  (enable_disable_channels_persistence "f" "c" 3 "135" (constDev SspResponse.ok)).2.1
    2 (by decide)

/-- C3.  For all `level ≥ 0` and `amount ≥ 0`, `set-denomination-level`
issues exactly two `SET_DENOMINATION_LEVEL` commands iff `level > 0` —
first `SET_DENOMINATION_LEVEL(amount, 0)` and then
`SET_DENOMINATION_LEVEL(amount, level)` — and exactly one iff
`level = 0`. -/
theorem set_denomination_level_call_shape (fm cid : String) (l a : Int) (dev : Device)
    (inh : Nat) (hl : 0 ≤ l) (ha : 0 ≤ a) :
    ((handleSetDenominationLevels fm cid (some (Json.int l)) (some (Json.int a))
        dev inh).calls
      = if 0 < l then
          [SspCmd.setDenominationLevel a 0, SspCmd.setDenominationLevel a l]
        else [SspCmd.setDenominationLevel a l])
  ∧ ((handleSetDenominationLevels fm cid (some (Json.int l)) (some (Json.int a))
        dev inh).calls.length = 2 ↔ 0 < l)
  ∧ ((handleSetDenominationLevels fm cid (some (Json.int l)) (some (Json.int a))
        dev inh).calls.length = 1 ↔ l = 0) := by
  by_cases h : 0 < l <;>
    simp [handleSetDenominationLevels, h] <;> omega

/-- Witness for `set_denomination_level_call_shape` at `level = 1`,
`amount = 2`. -/
theorem set_denomination_level_call_shape_witness :
    (handleSetDenominationLevels "f" "c" (some (Json.int 1)) (some (Json.int 2))
        (constDev SspResponse.ok) 0).calls
      = [SspCmd.setDenominationLevel 2 0, SspCmd.setDenominationLevel 2 1] := by
  have h := (set_denomination_level_call_shape "f" "c" 1 2 (constDev SspResponse.ok) 0
    (by decide) (by decide)).1
  simpa using h

/-- C4.  In any position of a validator poll batch, a READ or CREDIT
event with channel byte `c ≥ 1` is published with
`amount = channelTable[c-1].value * 100` and channel `c`, and a READ
event with channel byte 0 is published as the bare "reading" event. -/
theorem validator_read_credit_amount (table : Nat → Nat) (dev : Device) (c : Nat)
    (cc : String) (rest : List PollEvent) (hc : 1 ≤ c) :
    validatorEventHandler table dev (PollEvent.read c :: rest)
      = ⟨VOut.readAmount (table (c - 1) * 100) c ::
          (validatorEventHandler table dev rest).published,
         (validatorEventHandler table dev rest).calls,
         (validatorEventHandler table dev rest).exited⟩
  ∧ validatorEventHandler table dev (PollEvent.credit c cc :: rest)
      = ⟨VOut.creditAmount (table (c - 1) * 100) c ::
          (validatorEventHandler table dev rest).published,
         (validatorEventHandler table dev rest).calls,
         (validatorEventHandler table dev rest).exited⟩
  ∧ validatorEventHandler table dev (PollEvent.read 0 :: rest)
      = ⟨VOut.reading :: (validatorEventHandler table dev rest).published,
         (validatorEventHandler table dev rest).calls,
         (validatorEventHandler table dev rest).exited⟩ := by
  refine ⟨?_, rfl, rfl⟩
  simp only [validatorEventHandler]
  rw [if_pos (show 0 < c from hc)]

/-- Witness for `validator_read_credit_amount`: channel 2 with value 10
publishes amount 1000. -/
theorem validator_read_credit_amount_witness :
    validatorEventHandler (fun _ => 10) (constDev SspResponse.ok) [PollEvent.read 2]
      = ⟨[VOut.readAmount 1000 2], [], none⟩ := by
  have h := (validator_read_credit_amount (fun _ => 10) (constDev SspResponse.ok) 2 "EUR"
    [] (by decide)).1
  simpa using h

/-- C8 counterexample.  Starting from the all-disabled mask 0x00, a
successful enable-channels("135") followed by a successful
disable-channels("3") leaves the stored `channelInhibits` at
0b00010001 = 17, not at 0b00010101 = 21 as the claim states (disabling
channel 3 clears bit 2 again). -/
theorem enable_disable_scenario_counterexample : c8run ≠ 21 := by decide

/-- C8 (amended).  The scenario of the claim ends with
`channelInhibits = 0b00010001`: bits 0 and 4 (channels 1 and 5) stay
set, bit 2 (channel 3) was set by the enable and cleared again by the
disable. -/
theorem enable_disable_scenario_result : c8run = 17 := by decide

/-- C5 counterexample.  A poll exchange answered with KEY_NOT_SET issues
the POLL exactly once (no replay after the key renegotiation) and never
invokes the event handler; and a command exchange (here `empty`)
answered with KEY_NOT_SET produces a reply different from the reply of a
successful first try — the caller can tell them apart. -/
theorem key_not_set_replay_counterexample :
    (mcSspPollDevice (fun _ => 0) (constDev SspResponse.keyNotSet)
        [PollEvent.read 1]).calls.count SspCmd.poll = 1
  ∧ (mcSspPollDevice (fun _ => 0) (constDev SspResponse.keyNotSet)
        [PollEvent.read 1]).handlerInvoked = false
  ∧ handleEmpty "f" "c" (constDev SspResponse.keyNotSet) 0
      ≠ handleEmpty "f" "c" (constDev SspResponse.ok) 0 := by decide

/-- C5 (amended).  On a KEY_NOT_SET poll response the engine runs the
key renegotiation but does NOT replay the poll: the tick ends with
exactly `[POLL, key-exchange]` on the wire and no events delivered.  No
command-driven exchange renegotiates: against a device that answers
KEY_NOT_SET to every command, `quit` and `test` still reply ok (they
never touch the hardware), `channel-security-data` publishes nothing,
an unknown command gets the unknown-command error, and every other
dispatched command surfaces the sspError reply "key not set" to the
caller — distinguishable from a first-try success. -/
theorem key_not_set_no_replay (table : Nat → Nat) (dev : Device)
    (events : List PollEvent) (fm m c ch : String) (a l r g b t : Int)
    (inh : Nat) (dev2 : Device)
    (hp : (dev SspCmd.poll).1 = SspResponse.keyNotSet)
    (hdev : ∀ cmd, (dev2 cmd).1 = SspResponse.keyNotSet) :
    mcSspPollDevice table dev events
      = ⟨[SspCmd.poll, SspCmd.keyExchange], false, none⟩
  ∧ (cbOnRequestMessage fm (InboundMessage.parsed
        ⟨some (Json.str m), some (Json.str c), some (Json.str ch),
         some (Json.int a), some (Json.int l), some (Json.int r),
         some (Json.int g), some (Json.int b), some (Json.int t)⟩)
      true dev2 inh).replies
      = (if c = "quit" ∨ c = "test" then [Reply.sspOk fm m]
         else if c = "channel-security-data" then []
         else if c ∈ hardwareReplyCmds then [Reply.sspErr fm m "key not set"]
         else [Reply.unknownCmd m c]) := by
  constructor
  · simp [mcSspPollDevice, hp]
  · simp only [cbOnRequestMessage]
    by_cases h1 : c = "quit"
    · rw [if_pos h1, if_pos (Or.inl h1)]
      simp [handleQuit, replyWithSspResponse]
    rw [if_neg h1]
    by_cases h2 : c = "test"
    · rw [if_pos h2, if_pos (Or.inr h2)]
      simp [handleTest, replyWithSspResponse]
    rw [if_neg h2]
    rw [if_neg (by decide : ¬((true : Bool) = false))]
    by_cases h4 : c = "configure-bezel"
    · rw [if_pos h4]
      subst h4
      rw [if_neg (by decide), if_neg (by decide), if_pos (by decide)]
      simp [handleConfigureBezel, hdev, replyWithSspResponse, sspErrorMessage]
    rw [if_neg h4]
    by_cases h5 : c = "empty"
    · rw [if_pos h5]
      subst h5
      rw [if_neg (by decide), if_neg (by decide), if_pos (by decide)]
      simp [handleEmpty, hdev, replyWithSspResponse, sspErrorMessage]
    rw [if_neg h5]
    by_cases h6 : c = "smart-empty"
    · rw [if_pos h6]
      subst h6
      rw [if_neg (by decide), if_neg (by decide), if_pos (by decide)]
      simp [handleSmartEmpty, hdev, replyWithSspResponse, sspErrorMessage]
    rw [if_neg h6]
    by_cases h7 : c = "cashbox-payout-operation-data"
    · rw [if_pos h7]
      subst h7
      rw [if_neg (by decide), if_neg (by decide), if_pos (by decide)]
      simp [handleCashboxPayoutOperationData, hdev, replyWithSspResponse, sspErrorMessage]
    rw [if_neg h7]
    by_cases h8 : c = "set-cashbox-payout-limit"
    · rw [if_pos h8]
      subst h8
      rw [if_neg (by decide), if_neg (by decide), if_pos (by decide)]
      simp [handleSetCashboxPayoutLimit, hdev, replyWithSspResponse, sspErrorMessage]
    rw [if_neg h8]
    by_cases h9 : c = "enable"
    · rw [if_pos h9]
      subst h9
      rw [if_neg (by decide), if_neg (by decide), if_pos (by decide)]
      simp [handleEnable, hdev, replyWithSspResponse, sspErrorMessage]
    rw [if_neg h9]
    by_cases h10 : c = "disable"
    · rw [if_pos h10]
      subst h10
      rw [if_neg (by decide), if_neg (by decide), if_pos (by decide)]
      simp [handleDisable, hdev, replyWithSspResponse, sspErrorMessage]
    rw [if_neg h10]
    by_cases h11 : c = "enable-channels"
    · rw [if_pos h11]
      subst h11
      rw [if_neg (by decide), if_neg (by decide), if_pos (by decide)]
      simp [handleEnableChannels, hdev, replyWithSspResponse, sspErrorMessage]
    rw [if_neg h11]
    by_cases h12 : c = "disable-channels"
    · rw [if_pos h12]
      subst h12
      rw [if_neg (by decide), if_neg (by decide), if_pos (by decide)]
      simp [handleDisableChannels, hdev, replyWithSspResponse, sspErrorMessage]
    rw [if_neg h12]
    by_cases h13 : c = "inhibit-channels"
    · rw [if_pos h13]
      subst h13
      rw [if_neg (by decide), if_neg (by decide), if_pos (by decide)]
      simp [handleInhibitChannels, hdev, replyWithSspResponse, sspErrorMessage]
    rw [if_neg h13]
    by_cases h14 : c = "test-float" ∨ c = "do-float"
    · rw [if_pos h14]
      rcases h14 with h14a | h14a
      · subst h14a
        rw [if_neg (by decide), if_neg (by decide), if_pos (by decide)]
        simp [handleFloat, hdev, replyWithSspResponse, sspErrorMessage]
      · subst h14a
        rw [if_neg (by decide), if_neg (by decide), if_pos (by decide)]
        simp [handleFloat, hdev, replyWithSspResponse, sspErrorMessage]
    rw [if_neg h14]
    by_cases h15 : c = "test-payout" ∨ c = "do-payout"
    · rw [if_pos h15]
      rcases h15 with h15a | h15a
      · subst h15a
        rw [if_neg (by decide), if_neg (by decide), if_pos (by decide)]
        simp [handlePayout, hdev, replyWithSspResponse, sspErrorMessage]
      · subst h15a
        rw [if_neg (by decide), if_neg (by decide), if_pos (by decide)]
        simp [handlePayout, hdev, replyWithSspResponse, sspErrorMessage]
    rw [if_neg h15]
    by_cases h16 : c = "get-firmware-version"
    · rw [if_pos h16]
      subst h16
      rw [if_neg (by decide), if_neg (by decide), if_pos (by decide)]
      simp [handleGetFirmwareVersion, hdev, replyWithSspResponse, sspErrorMessage]
    rw [if_neg h16]
    by_cases h17 : c = "get-dataset-version"
    · rw [if_pos h17]
      subst h17
      rw [if_neg (by decide), if_neg (by decide), if_pos (by decide)]
      simp [handleGetDatasetVersion, hdev, replyWithSspResponse, sspErrorMessage]
    rw [if_neg h17]
    by_cases h18 : c = "channel-security-data"
    · rw [if_pos h18]
      subst h18
      rw [if_neg (by decide), if_pos rfl]
      rfl
    rw [if_neg h18]
    by_cases h19 : c = "get-all-levels"
    · rw [if_pos h19]
      subst h19
      rw [if_neg (by decide), if_neg (by decide), if_pos (by decide)]
      simp [handleGetAllLevels, hdev, replyWithSspResponse, sspErrorMessage]
    rw [if_neg h19]
    by_cases h20 : c = "set-denomination-level"
    · rw [if_pos h20]
      subst h20
      rw [if_neg (by decide), if_neg (by decide), if_pos (by decide)]
      simp [handleSetDenominationLevels, hdev, replyWithSspResponse, sspErrorMessage]
    rw [if_neg h20]
    by_cases h21 : c = "last-reject-note"
    · rw [if_pos h21]
      subst h21
      rw [if_neg (by decide), if_neg (by decide), if_pos (by decide)]
      simp [handleLastRejectNote, hdev, replyWithSspResponse, sspErrorMessage]
    rw [if_neg h21]
    have hf := not_or.mp h14
    have hpp := not_or.mp h15
    have hmem : ¬(c ∈ hardwareReplyCmds) := by
      simp only [hardwareReplyCmds, List.mem_cons, List.not_mem_nil, or_false]
      push_neg
      exact ⟨h4, h5, h6, h7, h8, h9, h10, h11, h12, h13, hf.1, hf.2, hpp.1, hpp.2,
        h16, h17, h19, h20, h21⟩
    rw [if_neg (not_or.mpr ⟨h1, h2⟩), if_neg h18, if_neg hmem]

/-- Witness for `key_not_set_no_replay`: constant KEY_NOT_SET oracles
and an `empty` command, whose caller sees the "key not set" error. -/
theorem key_not_set_no_replay_witness :
    mcSspPollDevice (fun _ => 0) (constDev SspResponse.keyNotSet) []
      = ⟨[SspCmd.poll, SspCmd.keyExchange], false, none⟩
  ∧ (cbOnRequestMessage "f" (InboundMessage.parsed
        ⟨some (Json.str "abc"), some (Json.str "empty"), some (Json.str "1"),
         some (Json.int 1), some (Json.int 1), some (Json.int 1),
         some (Json.int 1), some (Json.int 1), some (Json.int 1)⟩)
      true (constDev SspResponse.keyNotSet) 0).replies
      = (if "empty" = "quit" ∨ "empty" = "test" then [Reply.sspOk "f" "abc"]
         else if "empty" = "channel-security-data" then []
         else if "empty" ∈ hardwareReplyCmds then [Reply.sspErr "f" "abc" "key not set"]
         else [Reply.unknownCmd "abc" "empty"]) :=
  key_not_set_no_replay (fun _ => 0) (constDev SspResponse.keyNotSet) [] "f" "abc"
    "empty" "1" 1 1 1 1 1 1 0 (constDev SspResponse.keyNotSet) rfl (fun _ => rfl)

/-- C9 counterexample.  When re-pinning protocol version 6 after a reset
event fails, the process exits via `die(_, 3)`: the exit code is 3, not
1 as the claim states. -/
theorem reset_repin_exit_code_counterexample :
    (validatorEventHandler (fun _ => 0) (constDev SspResponse.timeout)
        [PollEvent.reset]).exited = some 3
  ∧ (3 : Nat) ≠ 1 := by decide

/-- C9 (amended).  The process exits with code 0 on normal shutdown and
with code 1 on argument error or redis-connection failure; but the fatal
exit taken when re-pinning protocol version 6 fails after a reset event
uses code 3. -/
theorem exit_codes (redisOk : Bool) (table : Nat → Nat) (dev : Device)
    (rest : List PollEvent)
    (hdev : (dev (SspCmd.hostProtocol 6)).1 ≠ SspResponse.ok) :
    mainExitCode false redisOk = 1
  ∧ mainExitCode true false = 1
  ∧ mainExitCode true true = 0
  ∧ (validatorEventHandler table dev (PollEvent.reset :: rest)).exited = some 3 := by
  refine ⟨rfl, rfl, rfl, ?_⟩
  simp only [validatorEventHandler]
  rw [if_pos hdev]

/-- Witness for `exit_codes` with an oracle that answers TIMEOUT to the
host-protocol command. -/
theorem exit_codes_witness :
    (validatorEventHandler (fun _ => 0) (constDev SspResponse.timeout)
        [PollEvent.reset]).exited = some 3 :=
  (exit_codes true (fun _ => 0) (constDev SspResponse.timeout) [] (by decide)).2.2.2

/-- C10.  A request whose `msgId` property is missing or not a string is
answered with a property-error reply whose `correlId` is the literal
string "unknown" and whose `msgId` is the freshly generated response
UUID. -/
theorem missing_msgId_property_reply (fm : String) (req : Request) (hw : Bool)
    (dev : Device) (inh : Nat) (h : isJsonString req.msgId = false) :
    (cbOnRequestMessage fm (InboundMessage.parsed req) hw dev inh).replies
      = [Reply.propertyError fm "unknown" "msgId"]
  ∧ (Reply.propertyError fm "unknown" "msgId").msgIdField = some fm
  ∧ (Reply.propertyError fm "unknown" "msgId").correlIdField = some "unknown" := by
  refine ⟨?_, rfl, rfl⟩
  cases hm : req.msgId with
  | none => simp [cbOnRequestMessage, hm, replyWithPropertyError]
  | some j =>
    cases j with
    | str s => rw [hm] at h; simp [isJsonString] at h
    | int n => simp [cbOnRequestMessage, hm, replyWithPropertyError]

/-- Witness for `missing_msgId_property_reply`: a request with no msgId
property at all. -/
theorem missing_msgId_property_reply_witness :
    (cbOnRequestMessage "f" (InboundMessage.parsed
        ⟨none, some (Json.str "test"), none, none, none, none, none, none, none⟩)
      true (constDev SspResponse.ok) 0).replies
      = [Reply.propertyError "f" "unknown" "msgId"] :=
  (missing_msgId_property_reply "f"
    ⟨none, some (Json.str "test"), none, none, none, none, none, none, none⟩
    true (constDev SspResponse.ok) 0 rfl).1

theorem chanStep_enable_disable_inv (s : ChanState) (op : ChanOp)
    (hs : chanInv s = true) (hop : isEnableDisable op = true) :
    chanInv (chanStep s op) = true := by
  cases op with
  | enable ch r =>
    by_cases hr : r = SspResponse.ok <;>
      simp_all [chanStep, handleEnableChannels, trackAck, constDev, chanInv, hr]
  | disable ch r =>
    by_cases hr : r = SspResponse.ok <;>
      simp_all [chanStep, handleDisableChannels, trackAck, constDev, chanInv, hr]
  | inhibit ch r => simp [isEnableDisable] at hop

/-- C1 counterexample.  The invariant "the stored `channelInhibits`
equals the low byte of the last successfully acknowledged
`SET_INHIBITS`" does NOT extend to inhibit-channels: from the state
(mask 0, last acknowledged write 0) — where the invariant holds — a
successful inhibit-channels("") acknowledges a `SET_INHIBITS(0xFF,0xFF)`
write while the stored mask stays 0, breaking the invariant. -/
theorem inhibits_last_acked_counterexample :
    chanInv (⟨0, some 0⟩ : ChanState) = true
  ∧ chanInv (chanStep ⟨0, some 0⟩ (ChanOp.inhibit "" SspResponse.ok)) = false := by
  decide

/-- C1 (amended).  Along any sequence of enable-channels and
disable-channels operations (the handlers that persist the mask), the
stored `channelInhibits` always equals the low byte of the last
`SET_INHIBITS` the device acknowledged with OK, and a failed write
leaves it unchanged; the stateless inhibit-channels handler is excluded
because it writes without updating the stored mask. -/
theorem inhibits_match_last_acked (ops : List ChanOp) (s : ChanState)
    (hs : chanInv s = true) (hops : ops.all isEnableDisable = true) :
    chanInv (ops.foldl chanStep s) = true := by
  induction ops generalizing s with
  | nil => exact hs
  | cons op rest ih =>
    rw [List.all_cons, Bool.and_eq_true] at hops
    exact ih (chanStep s op) (chanStep_enable_disable_inv s op hs hops.1) hops.2

/-- Witness for `inhibits_match_last_acked`: a successful enable followed
by a failed disable, starting from the freshly initialised state. -/
theorem inhibits_match_last_acked_witness :
    chanInv (⟨0, none⟩ : ChanState) = true
  ∧ ([ChanOp.enable "15" SspResponse.ok,
      ChanOp.disable "5" SspResponse.timeout].all isEnableDisable = true)
  ∧ chanInv ([ChanOp.enable "15" SspResponse.ok,
      ChanOp.disable "5" SspResponse.timeout].foldl chanStep ⟨0, none⟩) = true :=
  ⟨by decide, by decide,
    inhibits_match_last_acked
      [ChanOp.enable "15" SspResponse.ok, ChanOp.disable "5" SspResponse.timeout]
      ⟨0, none⟩ (by decide) (by decide)⟩

theorem goodReply_sspResponse (fm cid : String) (r : SspResponse) :
    goodReply fm cid (replyWithSspResponse fm cid r) = true := by
  by_cases h : r = SspResponse.ok <;>
    simp [replyWithSspResponse, h, goodReply, Reply.msgIdField, Reply.correlIdField]

theorem goodReply_propertyError (fm cid name : String) :
    goodReply fm cid (replyWithPropertyError (some fm) (some cid) name) = true := by
  simp [replyWithPropertyError, goodReply, Reply.msgIdField, Reply.correlIdField]

theorem goodReply_payoutError (fm cid msg : String) :
    goodReply fm cid (Reply.payoutError cid msg) = true := by
  simp [goodReply, Reply.msgIdField, Reply.correlIdField]

theorem goodReply_levels (fm cid : String) :
    goodReply fm cid (Reply.levels cid) = true := by
  simp [goodReply, Reply.msgIdField, Reply.correlIdField]

theorem goodReply_version (fm cid : String) :
    goodReply fm cid (Reply.version cid) = true := by
  simp [goodReply, Reply.msgIdField, Reply.correlIdField]

theorem goodReply_rejectNote (fm cid reason : String) (code : Nat) :
    goodReply fm cid (Reply.rejectNote cid reason code) = true := by
  simp [goodReply, Reply.msgIdField, Reply.correlIdField]

theorem goodReply_hardwareUnavailable (fm cid : String) :
    goodReply fm cid (Reply.hardwareUnavailable cid) = true := by
  simp [goodReply, Reply.msgIdField, Reply.correlIdField]

theorem goodReply_unknownCmd (fm cid c : String) :
    goodReply fm cid (Reply.unknownCmd cid c) = true := by
  simp [goodReply, Reply.msgIdField, Reply.correlIdField]

theorem handleQuit_reply (fm cid : String) (inh : Nat) :
    (handleQuit fm cid inh).replies.length = 1
  ∧ (handleQuit fm cid inh).replies.all (goodReply fm cid) = true := by
  simp [handleQuit, goodReply_sspResponse]

theorem handleTest_reply (fm cid : String) (inh : Nat) :
    (handleTest fm cid inh).replies.length = 1
  ∧ (handleTest fm cid inh).replies.all (goodReply fm cid) = true := by
  simp [handleTest, goodReply_sspResponse]

theorem handleEmpty_reply (fm cid : String) (dev : Device) (inh : Nat) :
    (handleEmpty fm cid dev inh).replies.length = 1
  ∧ (handleEmpty fm cid dev inh).replies.all (goodReply fm cid) = true := by
  simp [handleEmpty, goodReply_sspResponse]

theorem handleSmartEmpty_reply (fm cid : String) (dev : Device) (inh : Nat) :
    (handleSmartEmpty fm cid dev inh).replies.length = 1
  ∧ (handleSmartEmpty fm cid dev inh).replies.all (goodReply fm cid) = true := by
  simp [handleSmartEmpty, goodReply_sspResponse]

theorem handleEnable_reply (fm cid : String) (dev : Device) (inh : Nat) :
    (handleEnable fm cid dev inh).replies.length = 1
  ∧ (handleEnable fm cid dev inh).replies.all (goodReply fm cid) = true := by
  simp [handleEnable, goodReply_sspResponse]

theorem handleDisable_reply (fm cid : String) (dev : Device) (inh : Nat) :
    (handleDisable fm cid dev inh).replies.length = 1
  ∧ (handleDisable fm cid dev inh).replies.all (goodReply fm cid) = true := by
  simp [handleDisable, goodReply_sspResponse]

theorem handleEnableChannels_reply (fm cid : String) (channels : Option Json)
    (dev : Device) (inh : Nat) :
    (handleEnableChannels fm cid channels dev inh).replies.length = 1
  ∧ (handleEnableChannels fm cid channels dev inh).replies.all (goodReply fm cid)
      = true := by
  cases channels with
  | none => simp [handleEnableChannels, goodReply_propertyError]
  | some j =>
    cases j <;>
      simp [handleEnableChannels, goodReply_propertyError, goodReply_sspResponse]

theorem handleDisableChannels_reply (fm cid : String) (channels : Option Json)
    (dev : Device) (inh : Nat) :
    (handleDisableChannels fm cid channels dev inh).replies.length = 1
  ∧ (handleDisableChannels fm cid channels dev inh).replies.all (goodReply fm cid)
      = true := by
  cases channels with
  | none => simp [handleDisableChannels, goodReply_propertyError]
  | some j =>
    cases j <;>
      simp [handleDisableChannels, goodReply_propertyError, goodReply_sspResponse]

theorem handleInhibitChannels_reply (fm cid : String) (channels : Option Json)
    (dev : Device) (inh : Nat) :
    (handleInhibitChannels fm cid channels dev inh).replies.length = 1
  ∧ (handleInhibitChannels fm cid channels dev inh).replies.all (goodReply fm cid)
      = true := by
  cases channels with
  | none => simp [handleInhibitChannels, goodReply_propertyError]
  | some j =>
    cases j <;>
      simp [handleInhibitChannels, goodReply_propertyError, goodReply_sspResponse]

theorem handlePayout_reply (fm cid : String) (isDo : Bool) (amount : Option Json)
    (dev : Device) (inh : Nat) :
    (handlePayout fm cid isDo amount dev inh).replies.length = 1
  ∧ (handlePayout fm cid isDo amount dev inh).replies.all (goodReply fm cid)
      = true := by
  cases amount with
  | none => simp [handlePayout, goodReply_propertyError]
  | some j =>
    cases j with
    | str s => simp [handlePayout, goodReply_propertyError]
    | int a =>
      by_cases h : (dev (SspCmd.payout a isDo)).1 = SspResponse.commandNotProcessed <;>
        simp [handlePayout, h, goodReply_sspResponse, goodReply_payoutError]

theorem handleFloat_reply (fm cid : String) (isDo : Bool) (amount : Option Json)
    (dev : Device) (inh : Nat) :
    (handleFloat fm cid isDo amount dev inh).replies.length = 1
  ∧ (handleFloat fm cid isDo amount dev inh).replies.all (goodReply fm cid)
      = true := by
  cases amount with
  | none => simp [handleFloat, goodReply_propertyError]
  | some j =>
    cases j with
    | str s => simp [handleFloat, goodReply_propertyError]
    | int a =>
      by_cases h : (dev (SspCmd.floatCmd a isDo)).1 = SspResponse.commandNotProcessed <;>
        simp [handleFloat, h, goodReply_sspResponse, goodReply_payoutError]

theorem handleSetDenominationLevels_reply (fm cid : String) (jLevel jAmount : Option Json)
    (dev : Device) (inh : Nat) :
    (handleSetDenominationLevels fm cid jLevel jAmount dev inh).replies.length = 1
  ∧ (handleSetDenominationLevels fm cid jLevel jAmount dev inh).replies.all
      (goodReply fm cid) = true := by
  cases jLevel with
  | none => simp [handleSetDenominationLevels, goodReply_propertyError]
  | some j =>
    cases j with
    | str s => simp [handleSetDenominationLevels, goodReply_propertyError]
    | int l =>
      cases jAmount with
      | none => simp [handleSetDenominationLevels, goodReply_propertyError]
      | some j2 =>
        cases j2 <;>
          simp [handleSetDenominationLevels, goodReply_propertyError,
            goodReply_sspResponse]

theorem handleSetCashboxPayoutLimit_reply (fm cid : String) (jLevel jAmount : Option Json)
    (dev : Device) (inh : Nat) :
    (handleSetCashboxPayoutLimit fm cid jLevel jAmount dev inh).replies.length = 1
  ∧ (handleSetCashboxPayoutLimit fm cid jLevel jAmount dev inh).replies.all
      (goodReply fm cid) = true := by
  cases jLevel with
  | none => simp [handleSetCashboxPayoutLimit, goodReply_propertyError]
  | some j =>
    cases j with
    | str s => simp [handleSetCashboxPayoutLimit, goodReply_propertyError]
    | int l =>
      cases jAmount with
      | none => simp [handleSetCashboxPayoutLimit, goodReply_propertyError]
      | some j2 =>
        cases j2 <;>
          simp [handleSetCashboxPayoutLimit, goodReply_propertyError,
            goodReply_sspResponse]

theorem handleGetAllLevels_reply (fm cid : String) (dev : Device) (inh : Nat) :
    (handleGetAllLevels fm cid dev inh).replies.length = 1
  ∧ (handleGetAllLevels fm cid dev inh).replies.all (goodReply fm cid) = true := by
  by_cases h : (dev SspCmd.getAllLevels).1 = SspResponse.ok <;>
    simp [handleGetAllLevels, h, goodReply_sspResponse, goodReply_levels]

theorem handleCashboxPayoutOperationData_reply (fm cid : String) (dev : Device)
    (inh : Nat) :
    (handleCashboxPayoutOperationData fm cid dev inh).replies.length = 1
  ∧ (handleCashboxPayoutOperationData fm cid dev inh).replies.all (goodReply fm cid)
      = true := by
  by_cases h : (dev SspCmd.cashboxPayoutOperationData).1 = SspResponse.ok <;>
    simp [handleCashboxPayoutOperationData, h, goodReply_sspResponse, goodReply_levels]

theorem handleGetFirmwareVersion_reply (fm cid : String) (dev : Device) (inh : Nat) :
    (handleGetFirmwareVersion fm cid dev inh).replies.length = 1
  ∧ (handleGetFirmwareVersion fm cid dev inh).replies.all (goodReply fm cid)
      = true := by
  by_cases h : (dev SspCmd.getFirmwareVersion).1 = SspResponse.ok <;>
    simp [handleGetFirmwareVersion, h, goodReply_sspResponse, goodReply_version]

theorem handleGetDatasetVersion_reply (fm cid : String) (dev : Device) (inh : Nat) :
    (handleGetDatasetVersion fm cid dev inh).replies.length = 1
  ∧ (handleGetDatasetVersion fm cid dev inh).replies.all (goodReply fm cid)
      = true := by
  by_cases h : (dev SspCmd.getDatasetVersion).1 = SspResponse.ok <;>
    simp [handleGetDatasetVersion, h, goodReply_sspResponse, goodReply_version]

theorem handleLastRejectNote_reply (fm cid : String) (dev : Device) (inh : Nat) :
    (handleLastRejectNote fm cid dev inh).replies.length = 1
  ∧ (handleLastRejectNote fm cid dev inh).replies.all (goodReply fm cid) = true := by
  by_cases h : (dev SspCmd.lastRejectNote).1 = SspResponse.ok <;>
    simp [handleLastRejectNote, h, goodReply_sspResponse, goodReply_rejectNote]

theorem handleConfigureBezel_reply (fm cid : String) (jR jG jB jType : Option Json)
    (dev : Device) (inh : Nat) :
    (handleConfigureBezel fm cid jR jG jB jType dev inh).replies.length = 1
  ∧ (handleConfigureBezel fm cid jR jG jB jType dev inh).replies.all (goodReply fm cid)
      = true := by
  cases jR with
  | none => simp [handleConfigureBezel, goodReply_propertyError]
  | some j1 =>
    cases j1 with
    | str s => simp [handleConfigureBezel, goodReply_propertyError]
    | int r =>
      cases jG with
      | none => simp [handleConfigureBezel, goodReply_propertyError]
      | some j2 =>
        cases j2 with
        | str s => simp [handleConfigureBezel, goodReply_propertyError]
        | int g =>
          cases jB with
          | none => simp [handleConfigureBezel, goodReply_propertyError]
          | some j3 =>
            cases j3 with
            | str s => simp [handleConfigureBezel, goodReply_propertyError]
            | int b =>
              cases jType with
              | none => simp [handleConfigureBezel, goodReply_propertyError]
              | some j4 =>
                cases j4 <;>
                  simp [handleConfigureBezel, goodReply_propertyError,
                    goodReply_sspResponse]

theorem handleChannelSecurityData_reply (dev : Device) (inh : Nat) :
    (handleChannelSecurityData dev inh).replies = [] := rfl

/-- C6 counterexample.  Not every reply carries both `msgId` and
`correlId`: the success reply of `get-all-levels` carries no `msgId`
field at all, and a parse-error reply carries neither `msgId` nor
`correlId`. -/
theorem response_envelope_counterexample :
    (cbOnRequestMessage "f" (InboundMessage.parsed
        ⟨some (Json.str "abc"), some (Json.str "get-all-levels"),
         none, none, none, none, none, none, none⟩)
      true (constDev SspResponse.ok) 0).replies = [Reply.levels "abc"]
  ∧ (Reply.levels "abc").msgIdField = none
  ∧ (cbOnRequestMessage "f" (InboundMessage.parseFail "x" 1)
      true (constDev SspResponse.ok) 0).replies = [Reply.parseError "x" 1]
  ∧ (Reply.parseError "x" 1).msgIdField = none
  ∧ (Reply.parseError "x" 1).correlIdField = none := by decide

/-- C6 (amended).  For every parsed request whose `msgId` is the string
`m`, every reply the dispatch publishes carries `correlId = m`, and its
`msgId` field — present exactly on the `replyWithSspResponse` and
`replyWithPropertyError` shapes — is the freshly generated response id;
the other reply shapes (payout/float errors, get-all-levels,
cashbox-payout-operation-data, firmware/dataset version,
last-reject-note, hardware-unavailable and unknown-command) omit
`msgId`, and parse-error replies (which only arise for unparsable
requests) carry neither field. -/
theorem responses_carry_correlId (fm m : String) (req : Request) (hw : Bool)
    (dev : Device) (inh : Nat) (hm : req.msgId = some (Json.str m)) :
    (cbOnRequestMessage fm (InboundMessage.parsed req) hw dev inh).replies.all
      (goodReply fm m) = true := by
  simp only [cbOnRequestMessage, hm]
  cases hc : req.cmd with
  | none => simp [goodReply_propertyError]
  | some j =>
    cases j with
    | int n => simp [goodReply_propertyError]
    | str c =>
      dsimp only
      by_cases h1 : c = "quit"
      · rw [if_pos h1]
        exact (handleQuit_reply _ _ _).2
      rw [if_neg h1]
      by_cases h2 : c = "test"
      · rw [if_pos h2]
        exact (handleTest_reply _ _ _).2
      rw [if_neg h2]
      by_cases hw3 : hw = false
      · rw [if_pos hw3]
        simp [goodReply_hardwareUnavailable]
      rw [if_neg hw3]
      by_cases h4 : c = "configure-bezel"
      · rw [if_pos h4]
        exact (handleConfigureBezel_reply _ _ _ _ _ _ _ _).2
      rw [if_neg h4]
      by_cases h5 : c = "empty"
      · rw [if_pos h5]
        exact (handleEmpty_reply _ _ _ _).2
      rw [if_neg h5]
      by_cases h6 : c = "smart-empty"
      · rw [if_pos h6]
        exact (handleSmartEmpty_reply _ _ _ _).2
      rw [if_neg h6]
      by_cases h7 : c = "cashbox-payout-operation-data"
      · rw [if_pos h7]
        exact (handleCashboxPayoutOperationData_reply _ _ _ _).2
      rw [if_neg h7]
      by_cases h8 : c = "set-cashbox-payout-limit"
      · rw [if_pos h8]
        exact (handleSetCashboxPayoutLimit_reply _ _ _ _ _ _).2
      rw [if_neg h8]
      by_cases h9 : c = "enable"
      · rw [if_pos h9]
        exact (handleEnable_reply _ _ _ _).2
      rw [if_neg h9]
      by_cases h10 : c = "disable"
      · rw [if_pos h10]
        exact (handleDisable_reply _ _ _ _).2
      rw [if_neg h10]
      by_cases h11 : c = "enable-channels"
      · rw [if_pos h11]
        exact (handleEnableChannels_reply _ _ _ _ _).2
      rw [if_neg h11]
      by_cases h12 : c = "disable-channels"
      · rw [if_pos h12]
        exact (handleDisableChannels_reply _ _ _ _ _).2
      rw [if_neg h12]
      by_cases h13 : c = "inhibit-channels"
      · rw [if_pos h13]
        exact (handleInhibitChannels_reply _ _ _ _ _).2
      rw [if_neg h13]
      by_cases h14 : c = "test-float" ∨ c = "do-float"
      · rw [if_pos h14]
        exact (handleFloat_reply _ _ _ _ _ _).2
      rw [if_neg h14]
      by_cases h15 : c = "test-payout" ∨ c = "do-payout"
      · rw [if_pos h15]
        exact (handlePayout_reply _ _ _ _ _ _).2
      rw [if_neg h15]
      by_cases h16 : c = "get-firmware-version"
      · rw [if_pos h16]
        exact (handleGetFirmwareVersion_reply _ _ _ _).2
      rw [if_neg h16]
      by_cases h17 : c = "get-dataset-version"
      · rw [if_pos h17]
        exact (handleGetDatasetVersion_reply _ _ _ _).2
      rw [if_neg h17]
      by_cases h18 : c = "channel-security-data"
      · rw [if_pos h18]
        simp [handleChannelSecurityData_reply]
      rw [if_neg h18]
      by_cases h19 : c = "get-all-levels"
      · rw [if_pos h19]
        exact (handleGetAllLevels_reply _ _ _ _).2
      rw [if_neg h19]
      by_cases h20 : c = "set-denomination-level"
      · rw [if_pos h20]
        exact (handleSetDenominationLevels_reply _ _ _ _ _ _).2
      rw [if_neg h20]
      by_cases h21 : c = "last-reject-note"
      · rw [if_pos h21]
        exact (handleLastRejectNote_reply _ _ _ _).2
      rw [if_neg h21]
      simp [goodReply_unknownCmd]

/-- Witness for `responses_carry_correlId` on a `do-payout` request. -/
theorem responses_carry_correlId_witness :
    (cbOnRequestMessage "f" (InboundMessage.parsed
        ⟨some (Json.str "abc"), some (Json.str "do-payout"),
         none, some (Json.int 500), none, none, none, none, none⟩)
      true (constDev SspResponse.ok) 0).replies.all (goodReply "f" "abc") = true :=
  responses_carry_correlId "f" "abc"
    ⟨some (Json.str "abc"), some (Json.str "do-payout"),
     none, some (Json.int 500), none, none, none, none, none⟩
    true (constDev SspResponse.ok) 0 rfl

/-- C7 counterexample.  A well-formed `channel-security-data` request
(string `msgId` and `cmd`, hardware available) is dispatched to its
handler but publishes NO response at all, contradicting "exactly one
response". -/
theorem one_reply_counterexample :
    (cbOnRequestMessage "f" (InboundMessage.parsed
        ⟨some (Json.str "abc"), some (Json.str "channel-security-data"),
         none, none, none, none, none, none, none⟩)
      true (constDev SspResponse.ok) 0).replies.length = 0
  ∧ (0 : Nat) ≠ 1 := by decide

/-- C7 (amended).  With hardware available, every successfully parsed
request with string `msgId` and `cmd` is answered with exactly one
response message — except `channel-security-data`, whose handler
publishes none.  (The response carries `correlId`; the `msgId` field is
present only on the `replyWithSspResponse` / property-error shapes, see
`responses_carry_correlId`.) -/
theorem one_reply_per_request (fm m c : String) (req : Request) (dev : Device)
    (inh : Nat) (hm : req.msgId = some (Json.str m))
    (hc : req.cmd = some (Json.str c)) :
    (cbOnRequestMessage fm (InboundMessage.parsed req) true dev inh).replies.length
      = if c = "channel-security-data" then 0 else 1 := by
  simp only [cbOnRequestMessage, hm, hc]
  by_cases h : c = "channel-security-data"
  · subst h
    rw [if_neg (by decide), if_neg (by decide), if_neg (by decide), if_neg (by decide),
      if_neg (by decide), if_neg (by decide), if_neg (by decide), if_neg (by decide),
      if_neg (by decide), if_neg (by decide), if_neg (by decide), if_neg (by decide),
      if_neg (by decide), if_neg (by decide), if_neg (by decide), if_neg (by decide),
      if_neg (by decide), if_pos rfl]
    simp [handleChannelSecurityData_reply]
  · conv_rhs => rw [if_neg h]
    by_cases h1 : c = "quit"
    · rw [if_pos h1]
      exact (handleQuit_reply _ _ _).1
    rw [if_neg h1]
    by_cases h2 : c = "test"
    · rw [if_pos h2]
      exact (handleTest_reply _ _ _).1
    rw [if_neg h2]
    rw [if_neg (by decide : ¬((true : Bool) = false))]
    by_cases h4 : c = "configure-bezel"
    · rw [if_pos h4]
      exact (handleConfigureBezel_reply _ _ _ _ _ _ _ _).1
    rw [if_neg h4]
    by_cases h5 : c = "empty"
    · rw [if_pos h5]
      exact (handleEmpty_reply _ _ _ _).1
    rw [if_neg h5]
    by_cases h6 : c = "smart-empty"
    · rw [if_pos h6]
      exact (handleSmartEmpty_reply _ _ _ _).1
    rw [if_neg h6]
    by_cases h7 : c = "cashbox-payout-operation-data"
    · rw [if_pos h7]
      exact (handleCashboxPayoutOperationData_reply _ _ _ _).1
    rw [if_neg h7]
    by_cases h8 : c = "set-cashbox-payout-limit"
    · rw [if_pos h8]
      exact (handleSetCashboxPayoutLimit_reply _ _ _ _ _ _).1
    rw [if_neg h8]
    by_cases h9 : c = "enable"
    · rw [if_pos h9]
      exact (handleEnable_reply _ _ _ _).1
    rw [if_neg h9]
    by_cases h10 : c = "disable"
    · rw [if_pos h10]
      exact (handleDisable_reply _ _ _ _).1
    rw [if_neg h10]
    by_cases h11 : c = "enable-channels"
    · rw [if_pos h11]
      exact (handleEnableChannels_reply _ _ _ _ _).1
    rw [if_neg h11]
    by_cases h12 : c = "disable-channels"
    · rw [if_pos h12]
      exact (handleDisableChannels_reply _ _ _ _ _).1
    rw [if_neg h12]
    by_cases h13 : c = "inhibit-channels"
    · rw [if_pos h13]
      exact (handleInhibitChannels_reply _ _ _ _ _).1
    rw [if_neg h13]
    by_cases h14 : c = "test-float" ∨ c = "do-float"
    · rw [if_pos h14]
      exact (handleFloat_reply _ _ _ _ _ _).1
    rw [if_neg h14]
    by_cases h15 : c = "test-payout" ∨ c = "do-payout"
    · rw [if_pos h15]
      exact (handlePayout_reply _ _ _ _ _ _).1
    rw [if_neg h15]
    by_cases h16 : c = "get-firmware-version"
    · rw [if_pos h16]
      exact (handleGetFirmwareVersion_reply _ _ _ _).1
    rw [if_neg h16]
    by_cases h17 : c = "get-dataset-version"
    · rw [if_pos h17]
      exact (handleGetDatasetVersion_reply _ _ _ _).1
    rw [if_neg h17]
    by_cases h18 : c = "channel-security-data"
    · rw [if_pos h18]
      exact absurd h18 h
    rw [if_neg h18]
    by_cases h19 : c = "get-all-levels"
    · rw [if_pos h19]
      exact (handleGetAllLevels_reply _ _ _ _).1
    rw [if_neg h19]
    by_cases h20 : c = "set-denomination-level"
    · rw [if_pos h20]
      exact (handleSetDenominationLevels_reply _ _ _ _ _ _).1
    rw [if_neg h20]
    by_cases h21 : c = "last-reject-note"
    · rw [if_pos h21]
      exact (handleLastRejectNote_reply _ _ _ _).1
    rw [if_neg h21]
    rfl

/-- Witness for `one_reply_per_request` on an `empty` request. -/
theorem one_reply_per_request_witness :
    (cbOnRequestMessage "f" (InboundMessage.parsed
        ⟨some (Json.str "abc"), some (Json.str "empty"),
         none, none, none, none, none, none, none⟩)
      true (constDev SspResponse.ok) 0).replies.length
      = if "empty" = "channel-security-data" then 0 else 1 :=
  one_reply_per_request "f" "abc" "empty"
    ⟨some (Json.str "abc"), some (Json.str "empty"),
     none, none, none, none, none, none, none⟩
    (constDev SspResponse.ok) 0 rfl rfl

end Payoutd
